import Mathlib

/-!
Shallow embedding of the core of the nq-god-dashboard backend
(`src/backend/intelligence.py` and `src/backend/learning_engine.py`).

Modelling conventions:
* Python floats are modelled as rationals (`ℚ`); every numeric relation in
  the claims is an exact arithmetic relation, so `ℚ` is faithful.
* Python `None`-able fields are `Option`; Python truthiness of a float is
  `≠ 0`, of a string is `≠ ""`, of a list is `≠ []`.
* `dict`s (which preserve insertion order in Python) are association lists.
* Wall-clock quantities (`datetime.now()`-derived values) are passed in as
  explicit parameters (`entry_time : ℕ` as an abstract timestamp used only
  for the `ORDER BY entry_time DESC` of the trade fetch, and the
  minutes-to-resolution of a resolve call); narrative message strings are
  abstracted to stable tags, since only their identity matters here.
-/

namespace NQGod

/-- Trade direction, `'LONG'`/`'SHORT'` strings in the source. -/
inductive Direction
  | LONG
  | SHORT
deriving DecidableEq, Repr

/-- Trade outcome, `'PENDING'`/`'WIN'`/`'LOSS'`/`'SCRATCH'` strings in the source. -/
inductive Outcome
  | PENDING
  | WIN
  | LOSS
  | SCRATCH
deriving DecidableEq, Repr

/-- ASCII lower-casing of one character, as Python `str.lower` acts on the
ASCII titles and keywords involved. -/
def lowerChar (c : Char) : Char :=
  if 'A' ≤ c ∧ c ≤ 'Z' then Char.ofNat (c.toNat + 32) else c

/-- Python `text.lower()` on the character sequence of a string. -/
def py_lower (s : String) : List Char :=
  s.toList.map lowerChar

/-- Python `x or d` for an optional float `x`: `None` and `0.0` are falsy. -/
def pyOrQ (o : Option ℚ) (d : ℚ) : ℚ :=
  match o with
  | none => d
  | some v => if v = 0 then d else v

/-- Python truthiness of an optional float. -/
def truthyQ (o : Option ℚ) : Bool :=
  match o with
  | none => false
  | some v => v != 0

/-- Python truthiness of an optional string. -/
def truthyS (o : Option String) : Bool :=
  match o with
  | none => false
  | some s => s != ""

/-- Python truthiness of an optional integer (minutes-to-resolution). -/
def truthyZ (o : Option ℤ) : Bool :=
  match o with
  | none => false
  | some z => z != 0

/-- Association-list lookup, modelling Python `dict.get`. -/
def assocGet {κ β : Type} [BEq κ] (m : List (κ × β)) (k : κ) : Option β :=
  (m.find? (fun kv => kv.fst == k)).map Prod.snd

/-- Append `v` to the bucket of key `k`, creating the bucket if absent —
models `if k not in d: d[k] = []` followed by `d[k].append(v)`. -/
def appendToKey {κ β : Type} [BEq κ] (m : List (κ × List β)) (k : κ) (v : β) :
    List (κ × List β) :=
  if m.any (fun kv => kv.fst == k) then
    m.map (fun kv => if kv.fst == k then (kv.fst, kv.snd ++ [v]) else kv)
  else
    m ++ [(k, [v])]

/-- The `TradeRecord` dataclass of `learning_engine.py` (fields the claims
touch; the catalyst text/source/category, option strike/expiration and greeks
that no claim reads are elided; list-valued narrative fields keep the lists
the source joins into strings). -/
structure TradeRecord where
  id : String
  pattern_name : String
  symbol : String := ""
  direction : Direction := .LONG
  entry_price : ℚ := 0
  entry_time : ℕ := 0
  target_price : ℚ := 0
  stop_price : ℚ := 0
  vix_regime : String := ""
  time_of_day : String := ""
  day_of_week : ℕ := 0
  days_to_expiry : ℕ := 0
  option_type : Option String := none
  iv_at_entry : Option ℚ := none
  pattern_score : ℚ := 1
  pattern_win_rate_at_entry : ℚ := 1/2
  outcome : Outcome := .PENDING
  exit_price : Option ℚ := none
  actual_return : Option ℚ := none
  max_favorable : Option ℚ := none
  max_adverse : Option ℚ := none
  time_to_resolution : Option ℤ := none
  failure_reasons : List String := []
  lessons : List String := []
  improvements : List String := []
deriving DecidableEq, Repr

/-- The `PatternEvolution` dataclass of `learning_engine.py`. -/
structure PatternEvolution where
  name : String
  version : ℕ := 1
  keywords : List String := []
  direction : Direction := .LONG
  symbols : List String := []
  base_weight : ℚ := 1
  best_time_of_day : Option String := none
  worst_time_of_day : Option String := none
  time_multipliers : List (String × ℚ) := []
  best_vix_regime : Option String := none
  vix_multipliers : List (String × ℚ) := []
  day_multipliers : List (ℕ × ℚ) := []
  optimal_stop_pct : ℚ := 2/100
  optimal_target_pct : ℚ := 3/100
  optimal_hold_hours : ℕ := 24
  total_trades : ℕ := 0
  wins : ℕ := 0
  losses : ℕ := 0
  scratches : ℕ := 0
  total_return : ℚ := 0
  returns_by_vix : List (String × List ℚ) := []
  returns_by_time : List (String × List ℚ) := []
  returns_by_day : List (ℕ × List ℚ) := []
  adjustments_made : List (List String) := []
deriving DecidableEq, Repr

/-- The `win_rate` property of `PatternEvolution`. -/
def PatternEvolution.win_rate (p : PatternEvolution) : ℚ :=
  if p.total_trades = 0 then 1/2 else (p.wins : ℚ) / (p.total_trades : ℚ)

/-- The `avg_return` property of `PatternEvolution`. -/
def PatternEvolution.avg_return (p : PatternEvolution) : ℚ :=
  if p.total_trades = 0 then 0 else p.total_return / (p.total_trades : ℚ)

/-- The `effective_weight` property of `PatternEvolution`: the base weight,
scaled live by the win-rate tier once the pattern has at least 10 trades. -/
def PatternEvolution.effective_weight (p : PatternEvolution) : ℚ :=
  let base := p.base_weight
  if 10 ≤ p.total_trades then
    if 13/20 < p.win_rate then base * (13/10)
    else if 11/20 < p.win_rate then base * (11/10)
    else if p.win_rate < 2/5 then base * (7/10)
    else if p.win_rate < 1/2 then base * (17/20)
    else base
  else base

/-! ## Pattern matcher (`PatternMatcher.match` in `intelligence.py`) -/

/-- Number of keyword phrases of `p` contained in the lower-cased text:
`sum(1 for kw in pattern.keywords if kw in text_lower)`. -/
def hit_count (p : PatternEvolution) (textLower : List Char) : ℕ :=
  p.keywords.countP (fun kw => decide (kw.toList <:+: textLower))

/-- One entry of the list `PatternMatcher.match` returns. -/
structure MatchResult where
  pattern : String
  direction : Direction
  symbols : List String
  score : ℚ
  weight : ℚ
  win_rate : ℚ
  optimal_stop : ℚ
  optimal_target : ℚ
  version : ℕ
  total_trades : ℕ
deriving DecidableEq, Repr

/-- The optional market-context argument of `PatternMatcher.match`. -/
structure MarketContext where
  vix_regime : Option String := none
  time_of_day : Option String := none
  day_of_week : Option ℕ := none
deriving DecidableEq, Repr

/-- Multiply the score by the looked-up multiplier when both the key and the
multiplier are truthy: `if key and d.get(key): score *= d[key]`. -/
def applyMulS (score : ℚ) (key : Option String) (m : List (String × ℚ)) : ℚ :=
  match key with
  | none => score
  | some k =>
    if k = "" then score
    else
      match assocGet m k with
      | none => score
      | some v => if v = 0 then score else score * v

/-- Day-of-week variant: `if day_of_week is not None and d.get(str(day)):`.
The JSON string keys of the stored map are modelled as their numeric values. -/
def applyMulD (score : ℚ) (key : Option ℕ) (m : List (ℕ × ℚ)) : ℚ :=
  match key with
  | none => score
  | some k =>
    match assocGet m k with
    | none => score
    | some v => if v = 0 then score else score * v

/-- Context adjustment of a matched score: VIX regime, then time of day, then
day of week, each defaulting to no change when absent or zero. -/
def applyContext (p : PatternEvolution) (score : ℚ) (ctx : Option MarketContext) : ℚ :=
  match ctx with
  | none => score
  | some c =>
    let s1 := applyMulS score c.vix_regime p.vix_multipliers
    let s2 := applyMulS s1 c.time_of_day p.time_multipliers
    applyMulD s2 c.day_of_week p.day_multipliers

/-- The body of the per-pattern loop of `PatternMatcher.match`: the pattern
fires when the hit count reaches `min(2, len(keywords))`, with base score
`(hits / keyword_count) * effective_weight` then context-adjusted. -/
def match_one (p : PatternEvolution) (textLower : List Char) (ctx : Option MarketContext) :
    Option MatchResult :=
  let hits := hit_count p textLower
  let min_hits := min 2 p.keywords.length
  if min_hits ≤ hits then
    let score0 := ((hits : ℚ) / (p.keywords.length : ℚ)) * p.effective_weight
    some
      { pattern := p.name
        direction := p.direction
        symbols := p.symbols
        score := applyContext p score0 ctx
        weight := p.effective_weight
        win_rate := p.win_rate
        optimal_stop := p.optimal_stop_pct
        optimal_target := p.optimal_target_pct
        version := p.version
        total_trades := p.total_trades }
  else none

/-- `PatternMatcher.match`: all firing patterns, sorted descending by score
(Python's stable sort keeps original order on ties). -/
def match_patterns (patterns : List PatternEvolution) (text : String)
    (ctx : Option MarketContext) : List MatchResult :=
  (patterns.filterMap (fun p => match_one p (py_lower text) ctx)).insertionSort
    (fun a b => b.score ≤ a.score)

/-! ## Learning database (`LearningDatabase` in `learning_engine.py`) -/

/-- The persisted store: the `trades` and `patterns` tables and the
append-only `learning_log` (kept as `(pattern_name, learning_type)` tags). -/
structure DB where
  trades : List TradeRecord := []
  patterns : List PatternEvolution := []
  learning_log : List (String × String) := []
deriving DecidableEq, Repr

/-- `LearningDatabase.save_trade`: `INSERT OR REPLACE` keyed by trade id. -/
def save_trade (db : DB) (t : TradeRecord) : DB :=
  if db.trades.any (fun r => r.id == t.id) then
    { db with trades := db.trades.map (fun r => if r.id == t.id then t else r) }
  else
    { db with trades := db.trades ++ [t] }

/-- `LearningDatabase.get_trades_for_pattern`: rows with the given pattern
name, newest entry first, capped at `limit`.  The name parameter is optional
because `resolve_trade` calls this with `pattern_name=None`; the SQL
`WHERE pattern_name = ?` with a NULL parameter matches no rows (a SQL `=`
against NULL is never true), so a `none` name always yields the empty list. -/
def get_trades_for_pattern (db : DB) (pname : Option String) (limit : ℕ) :
    List TradeRecord :=
  let rows := db.trades.filter (fun r =>
    match pname with
    | none => false
    | some n => r.pattern_name == n)
  (rows.insertionSort (fun a b => b.entry_time ≤ a.entry_time)).take limit

/-- `LearningDatabase.get_pattern` (the JSON decoding round-trips). -/
def get_pattern (db : DB) (name : String) : Option PatternEvolution :=
  db.patterns.find? (fun p => p.name == name)

/-- `LearningDatabase.save_pattern`: `INSERT OR REPLACE` keyed by name; the
serialized adjustment history keeps only the most recent 50 entries. -/
def save_pattern (db : DB) (p : PatternEvolution) : DB :=
  let stored := { p with
    adjustments_made := p.adjustments_made.drop (p.adjustments_made.length - 50) }
  if db.patterns.any (fun q => q.name == p.name) then
    { db with patterns := db.patterns.map (fun q => if q.name == p.name then stored else q) }
  else
    { db with patterns := db.patterns ++ [stored] }

/-- `LearningDatabase.log_learning`, reduced to the identifying tags. -/
def log_learning (db : DB) (pattern_name learning_type : String) : DB :=
  { db with learning_log := db.learning_log ++ [(pattern_name, learning_type)] }

/-! ## Outcome analysis (`AdaptiveLearningEngine.analyze_trade_outcome`) -/

/-- `AdaptiveLearningEngine._analyze_failure`: the fixed failure-reason rule
set, run on the already-resolved record.  Message strings are abstracted to
their leading tags. -/
def analyze_failure (t : TradeRecord) : List String :=
  let stop_block : List String :=
    if truthyQ t.max_adverse ∧ t.stop_price ≠ 0 then
      let stop_distance := |t.entry_price - t.stop_price| / t.entry_price
      let adverse_distance := |t.entry_price - t.max_adverse.getD 0| / t.entry_price
      let reversal : List String :=
        if truthyQ t.max_favorable ∧ t.max_favorable ≠ some t.entry_price then
          let favorable_distance := |t.max_favorable.getD 0 - t.entry_price| / t.entry_price
          if 1/100 < favorable_distance then ["REVERSAL"] else []
        else []
      reversal ++
        (if stop_distance * (9/10) < adverse_distance then ["STOP_TOO_TIGHT"] else [])
    else []
  let timing : List String :=
    (if t.time_of_day = "OPEN" ∧ truthyZ t.time_to_resolution
        ∧ t.time_to_resolution.getD 0 < 30 then ["OPEN_VOLATILITY"] else []) ++
      (if t.time_of_day = "CLOSE" then ["END_OF_DAY"] else [])
  let vix : List String :=
    if t.vix_regime = "HIGH_FEAR" ∧ t.direction = Direction.LONG then ["VIX_MISMATCH"]
    else if t.vix_regime = "COMPLACENT" ∧ t.direction = Direction.SHORT then ["VIX_MISMATCH"]
    else []
  let catalyst : List String :=
    if t.pattern_score < 3/2 then ["WEAK_CATALYST"] else []
  let options : List String :=
    if truthyS t.option_type ∧ t.days_to_expiry ≠ 0 then
      (if t.days_to_expiry < 3 then ["THETA_DECAY"] else []) ++
        (if truthyQ t.iv_at_entry ∧ 50 < t.iv_at_entry.getD 0 then ["IV_CRUSH_RISK"] else [])
    else []
  let reasons := stop_block ++ timing ++ vix ++ catalyst ++ options
  if reasons.isEmpty then ["MARKET_CONDITIONS"] else reasons

/-- `AdaptiveLearningEngine._analyze_success`, with messages as tags. -/
def analyze_success (t : TradeRecord) : List String :=
  (if truthyZ t.time_to_resolution ∧ t.time_to_resolution.getD 0 < 60 then
      ["QUICK_MOVE"] else []) ++
    (if t.vix_regime = "NORMAL" ∧ t.direction = Direction.LONG then
      ["FAVORABLE_REGIME"] else []) ++
    (if 2 ≤ t.pattern_score then ["HIGH_CONVICTION"] else []) ++
    (if 3/5 ≤ t.pattern_win_rate_at_entry then ["PROVEN_PATTERN"] else []) ++
    (if truthyQ t.max_favorable ∧
        |t.target_price - t.entry_price| * (12/10) < |t.max_favorable.getD 0 - t.entry_price|
      then ["EXCEEDED_TARGET"] else [])

/-- The lesson the per-reason `elif` chain of `_extract_lessons` attaches. -/
def lessonOf (reason : String) : Option String :=
  if reason = "STOP_TOO_TIGHT" then some "LESSON_WIDEN_STOP"
  else if reason = "OPEN_VOLATILITY" then some "LESSON_AVOID_FIRST_30_MIN"
  else if reason = "VIX_MISMATCH" then some "LESSON_CHECK_VIX_REGIME"
  else if reason = "THETA_DECAY" then some "LESSON_LONGER_DATED_OPTIONS"
  else if reason = "REVERSAL" then some "LESSON_PARTIAL_PROFITS_EARLIER"
  else none

/-- `AdaptiveLearningEngine._extract_lessons`. -/
def extract_lessons (t : TradeRecord) : List String :=
  (analyze_failure t).filterMap lessonOf

/-- The improvement the per-reason `elif` chain of `_suggest_improvements`
attaches. -/
def improvementOf (reason : String) : Option String :=
  if reason = "STOP_TOO_TIGHT" then some "IMPROVE_STOP_25PCT"
  else if reason = "OPEN_VOLATILITY" then some "IMPROVE_TIME_FILTER"
  else if reason = "VIX_MISMATCH" then some "IMPROVE_VIX_FILTER"
  else if reason = "WEAK_CATALYST" then some "IMPROVE_SCORE_THRESHOLD"
  else none

/-- `AdaptiveLearningEngine._suggest_improvements`. -/
def suggest_improvements (t : TradeRecord) : List String :=
  (analyze_failure t).filterMap improvementOf

/-- The analysis dict `analyze_trade_outcome` returns. -/
structure TradeAnalysis where
  outcome : Outcome
  ret : Option ℚ
  failure_reasons : List String := []
  success_factors : List String := []
  lessons : List String := []
  improvements : List String := []
deriving DecidableEq, Repr

/-- `AdaptiveLearningEngine.analyze_trade_outcome`. -/
def analyze_trade_outcome (t : TradeRecord) : TradeAnalysis :=
  if t.outcome = .WIN then
    { outcome := t.outcome, ret := t.actual_return, success_factors := analyze_success t }
  else if t.outcome = .LOSS then
    { outcome := t.outcome, ret := t.actual_return
      failure_reasons := analyze_failure t
      lessons := extract_lessons t
      improvements := suggest_improvements t }
  else
    { outcome := t.outcome, ret := t.actual_return }

/-! ## Learning engine (`AdaptiveLearningEngine.learn_from_pattern_history`) -/

/-- Python `max(xs, key=f)` over a nonempty list: first maximum wins. -/
def argmaxBy {α : Type} (f : α → ℚ) (x : α) (xs : List α) : α :=
  xs.foldl (fun b a => if f b < f a then a else b) x

/-- Python `min(xs, key=f)` over a nonempty list: first minimum wins. -/
def argminBy {α : Type} (f : α → ℚ) (x : α) (xs : List α) : α :=
  xs.foldl (fun b a => if f a < f b then a else b) x

/-- The `(vix_regime, won?)` pairs fed into `_analyze_by_vix`'s grouping. -/
def vix_flags (trades : List TradeRecord) : List (String × Bool) :=
  trades.filterMap (fun t =>
    if t.vix_regime ≠ "" ∧ (t.outcome = .WIN ∨ t.outcome = .LOSS) then
      some (t.vix_regime, t.outcome == Outcome.WIN)
    else none)

/-- The `(time_of_day, won?)` pairs fed into `_analyze_by_time`'s grouping. -/
def time_flags (trades : List TradeRecord) : List (String × Bool) :=
  trades.filterMap (fun t =>
    if t.time_of_day ≠ "" ∧ (t.outcome = .WIN ∨ t.outcome = .LOSS) then
      some (t.time_of_day, t.outcome == Outcome.WIN)
    else none)

/-- The `(day_of_week, won?)` pairs fed into `_analyze_by_day`'s grouping
(`day_of_week` is never `None` on a generated record). -/
def day_flags (trades : List TradeRecord) : List (ℕ × Bool) :=
  trades.filterMap (fun t =>
    if t.outcome = .WIN ∨ t.outcome = .LOSS then
      some (t.day_of_week, t.outcome == Outcome.WIN)
    else none)

/-- `defaultdict(list)` grouping in iteration order. -/
def group_flags {κ : Type} [BEq κ] (l : List (κ × Bool)) : List (κ × List Bool) :=
  l.foldl (fun acc kv => appendToKey acc kv.fst kv.snd) []

/-- Per-bucket `(key, win_rate, trades)` rows, kept only when the bucket has
at least `minN` outcomes. -/
def bucket_stats {κ : Type} [BEq κ] (g : List (κ × List Bool)) (minN : ℕ) :
    List (κ × ℚ × ℕ) :=
  g.filterMap (fun kv =>
    if minN ≤ kv.snd.length then
      some (kv.fst, ((kv.snd.countP id : ℚ) / (kv.snd.length : ℚ), kv.snd.length))
    else none)

/-- The dict `_analyze_by_vix` / `_analyze_by_time` return. -/
structure BucketPerf where
  best : Option String := none
  worst : Option String := none
  best_win_rate : ℚ := 0
  multipliers : List (String × ℚ) := []
  confidence : ℚ := 0
deriving DecidableEq, Repr

/-- Shared tail of `_analyze_by_vix` / `_analyze_by_time`: best/worst bucket,
sample-size confidence against `denom`, and win-rate/mean multipliers. -/
def bucket_perf (stats : List (String × ℚ × ℕ)) (denom : ℚ) : BucketPerf :=
  match stats with
  | [] => {}
  | s :: rest =>
    let best := argmaxBy (fun x => x.snd.fst) s rest
    let worst := argminBy (fun x => x.snd.fst) s rest
    let total := (stats.map (fun x => x.snd.snd)).sum
    let avg := (stats.map (fun x => x.snd.fst)).sum / (stats.length : ℚ)
    { best := some best.fst
      worst := some worst.fst
      best_win_rate := best.snd.fst
      multipliers := stats.map (fun x => (x.fst, if 0 < avg then x.snd.fst / avg else 1))
      confidence := min 1 ((total : ℚ) / denom) }

/-- `AdaptiveLearningEngine._analyze_by_vix`: buckets of ≥3 outcomes,
confidence `min(1, total/20)`. -/
def analyze_by_vix (trades : List TradeRecord) : BucketPerf :=
  bucket_perf (bucket_stats (group_flags (vix_flags trades)) 3) 20

/-- `AdaptiveLearningEngine._analyze_by_time`: buckets of ≥2 outcomes,
confidence `min(1, total/15)`. -/
def analyze_by_time (trades : List TradeRecord) : BucketPerf :=
  bucket_perf (bucket_stats (group_flags (time_flags trades)) 2) 15

/-- `AdaptiveLearningEngine._analyze_by_day`: multipliers only, buckets ≥2. -/
def analyze_by_day (trades : List TradeRecord) : List (ℕ × ℚ) :=
  let day_stats := (group_flags (day_flags trades)).filterMap (fun kv =>
    if 2 ≤ kv.snd.length then
      some (kv.fst, (kv.snd.countP id : ℚ) / (kv.snd.length : ℚ))
    else none)
  match day_stats with
  | [] => []
  | _ =>
    let avg := (day_stats.map Prod.snd).sum / (day_stats.length : ℚ)
    day_stats.map (fun kv => (kv.fst, if 0 < avg then kv.snd / avg else 1))

/-- The dict `_analyze_stops` returns. -/
structure StopAnalysis where
  optimal_stop : Option ℚ := none
  confidence : ℚ := 0
deriving DecidableEq, Repr

/-- LOSS rows with truthy `max_adverse` and `entry_price`, the population of
`_analyze_stops`. -/
def stop_loss_rows (trades : List TradeRecord) : List TradeRecord :=
  trades.filter (fun t =>
    t.outcome == Outcome.LOSS && truthyQ t.max_adverse && t.entry_price != 0)

/-- Planned stop distance as a fraction of entry. -/
def planned_stop_of (t : TradeRecord) : ℚ :=
  |t.entry_price - t.stop_price| / t.entry_price

/-- Worst adverse excursion as a fraction of entry. -/
def adverse_move_of (t : TradeRecord) : ℚ :=
  |t.entry_price - t.max_adverse.getD 0| / t.entry_price

/-- How far the adverse excursion exceeded the planned stop. -/
def exceeded_by_of (t : TradeRecord) : ℚ :=
  adverse_move_of t - planned_stop_of t

/-- Losses whose adverse excursion exceeded the planned stop by less than
0.5 percentage points (`exceeded_by < 0.005`). -/
def tight_stop_rows (ls : List TradeRecord) : List TradeRecord :=
  ls.filter (fun t => decide (exceeded_by_of t < 5/1000))

/-- Mean planned stop distance over the loss rows. -/
def avg_planned_stop (ls : List TradeRecord) : ℚ :=
  (ls.map planned_stop_of).sum / (ls.length : ℚ)

/-- The widened stop `_analyze_stops` recommends: mean planned stop × 1.3,
capped at 5%. -/
def recommended_stop (ls : List TradeRecord) : ℚ :=
  min (5/100) (avg_planned_stop ls * (13/10))

/-- The sample-size confidence of the stop recommendation: `min(1, n/10)`. -/
def stop_confidence (ls : List TradeRecord) : ℚ :=
  min 1 ((ls.length : ℚ) / 10)

/-- `AdaptiveLearningEngine._analyze_stops`. -/
def analyze_stops (trades : List TradeRecord) : StopAnalysis :=
  let ls := stop_loss_rows trades
  if ls.length < 3 then {}
  else if (ls.length : ℚ) * (1/2) < ((tight_stop_rows ls).length : ℚ) then
    { optimal_stop := some (recommended_stop ls), confidence := stop_confidence ls }
  else
    let avg_adverse := (ls.map adverse_move_of).sum / (ls.length : ℚ)
    if avg_planned_stop ls * 2 < avg_adverse then
      { optimal_stop := none, confidence := 1/2 }
    else {}

/-- The dict `_analyze_targets` returns. -/
structure TargetAnalysis where
  optimal_target : Option ℚ := none
  confidence : ℚ := 0
deriving DecidableEq, Repr

/-- WIN rows with truthy `max_favorable` and `entry_price`. -/
def target_win_rows (trades : List TradeRecord) : List TradeRecord :=
  trades.filter (fun t =>
    t.outcome == Outcome.WIN && truthyQ t.max_favorable && t.entry_price != 0)

/-- Planned target distance as a fraction of entry. -/
def planned_target_of (t : TradeRecord) : ℚ :=
  |t.target_price - t.entry_price| / t.entry_price

/-- Best favorable excursion as a fraction of entry. -/
def max_move_of (t : TradeRecord) : ℚ :=
  |t.max_favorable.getD 0 - t.entry_price| / t.entry_price

/-- `AdaptiveLearningEngine._analyze_targets`. -/
def analyze_targets (trades : List TradeRecord) : TargetAnalysis :=
  let ws := target_win_rows trades
  if ws.length < 3 then {}
  else
    let avg_left := (ws.map (fun t => max_move_of t - planned_target_of t)).sum / (ws.length : ℚ)
    let avg_target := (ws.map planned_target_of).sum / (ws.length : ℚ)
    if 1/100 < avg_left then
      { optimal_target := some (min (8/100) (avg_target + avg_left * (1/2)))
        confidence := min 1 ((ws.length : ℚ) / 10) }
    else {}

/-- Python gate `if perf['best_...'] and perf['confidence'] > 0.7`. -/
def bucket_gate (perf : BucketPerf) : Bool :=
  truthyS perf.best && decide (7/10 < perf.confidence)

/-- Python gate `if sa['optimal_stop'] and sa['confidence'] > 0.7`; note a
recommendation of exactly `0.0` is falsy and is discarded. -/
def stop_gate (sa : StopAnalysis) : Bool :=
  truthyQ sa.optimal_stop && decide (7/10 < sa.confidence)

/-- Python gate `if ta['optimal_target'] and ta['confidence'] > 0.7`. -/
def target_gate (ta : TargetAnalysis) : Bool :=
  truthyQ ta.optimal_target && decide (7/10 < ta.confidence)

/-- Step 1 of the learning pass: adopt the best VIX regime and regime
multipliers; the adjustment tag is recorded only when the label changed. -/
def apply_vix_learning (p : PatternEvolution) (trades : List TradeRecord) :
    PatternEvolution × List String :=
  let perf := analyze_by_vix trades
  if bucket_gate perf then
    ({ p with best_vix_regime := perf.best, vix_multipliers := perf.multipliers },
      if p.best_vix_regime ≠ perf.best then ["VIX_REGIME"] else [])
  else (p, [])

/-- Step 2 of the learning pass: best/worst time of day and multipliers. -/
def apply_time_learning (p : PatternEvolution) (trades : List TradeRecord) :
    PatternEvolution × List String :=
  let perf := analyze_by_time trades
  if bucket_gate perf then
    ({ p with
        best_time_of_day := perf.best
        worst_time_of_day := perf.worst
        time_multipliers := perf.multipliers },
      if p.best_time_of_day ≠ perf.best then ["TIME_OF_DAY"] else [])
  else (p, [])

/-- Step 3 of the learning pass: adopt the recommended stop when the gate
passes and the change exceeds 0.5 percentage points. -/
def apply_stop_learning (p : PatternEvolution) (trades : List TradeRecord) :
    PatternEvolution × List String :=
  let sa := analyze_stops trades
  if stop_gate sa ∧ 5/1000 < |sa.optimal_stop.getD 0 - p.optimal_stop_pct| then
    ({ p with optimal_stop_pct := sa.optimal_stop.getD 0 }, ["STOP_DISTANCE"])
  else (p, [])

/-- Step 4 of the learning pass: adopt the recommended target likewise. -/
def apply_target_learning (p : PatternEvolution) (trades : List TradeRecord) :
    PatternEvolution × List String :=
  let ta := analyze_targets trades
  if target_gate ta ∧ 5/1000 < |ta.optimal_target.getD 0 - p.optimal_target_pct| then
    ({ p with optimal_target_pct := ta.optimal_target.getD 0 }, ["TARGET_DISTANCE"])
  else (p, [])

/-- Step 5 of the learning pass: day-of-week multipliers, unconditional when
nonempty. -/
def apply_day_learning (p : PatternEvolution) (trades : List TradeRecord) :
    PatternEvolution :=
  let m := analyze_by_day trades
  if m ≠ [] then { p with day_multipliers := m } else p

/-- The aggressive base-weight tier update of the learning pass. -/
def base_weight_tier (win_rate avg_return old : ℚ) : ℚ :=
  if 7/10 ≤ win_rate ∧ 2/100 < avg_return then min 3 (old * (12/10))
  else if 3/5 ≤ win_rate ∧ 1/100 < avg_return then min (5/2) (old * (11/10))
  else if win_rate < 2/5 then max (3/10) (old * (7/10))
  else if win_rate < 1/2 then max (1/2) (old * (85/100))
  else old

/-- Step 6 of the learning pass: the base-weight tier update, applied only
when the pattern has at least 20 fetched trades. -/
def apply_base_weight_learning (p : PatternEvolution) (trades : List TradeRecord) :
    PatternEvolution × List String :=
  if 20 ≤ trades.length then
    let win_rate := ((trades.filter (fun t => t.outcome == Outcome.WIN)).length : ℚ) /
      (trades.length : ℚ)
    let avg_return := (trades.map (fun t => pyOrQ t.actual_return 0)).sum / (trades.length : ℚ)
    let w := base_weight_tier win_rate avg_return p.base_weight
    ({ p with base_weight := w }, if 1/10 < |w - p.base_weight| then ["BASE_WEIGHT"] else [])
  else (p, [])

/-- The closing counter rewrite of `learn_from_pattern_history`: totals,
wins, losses and total return are recomputed from the fetched rows and the
version bumped — the scratch counter is NOT reassigned in the source. -/
def rewrite_counters (p : PatternEvolution) (trades : List TradeRecord) :
    PatternEvolution :=
  { p with
    total_trades := trades.length
    wins := (trades.filter (fun t => t.outcome == Outcome.WIN)).length
    losses := (trades.filter (fun t => t.outcome == Outcome.LOSS)).length
    total_return := (trades.map (fun t => pyOrQ t.actual_return 0)).sum
    version := p.version + 1 }

/-- The whole parameter-update pipeline of a learning pass, returning the
updated pattern and the adjustment tags recorded. -/
def learn_core (p : PatternEvolution) (trades : List TradeRecord) :
    PatternEvolution × List String :=
  let s1 := apply_vix_learning p trades
  let s2 := apply_time_learning s1.fst trades
  let s3 := apply_stop_learning s2.fst trades
  let s4 := apply_target_learning s3.fst trades
  let p5 := apply_day_learning s4.fst trades
  let s6 := apply_base_weight_learning p5 trades
  let adjustments := s1.snd ++ s2.snd ++ s3.snd ++ s4.snd ++ s6.snd
  let p7 := rewrite_counters s6.fst trades
  ({ p7 with adjustments_made := p7.adjustments_made ++ [adjustments] }, adjustments)

/-- Result of `learn_from_pattern_history`: either the `insufficient_data`
status or a learning report (whose `new_parameters` are summarized by the
updated pattern itself). -/
inductive LearnResult where
  | insufficient (trades : ℕ)
  | report (trades_analyzed : ℕ) (newPattern : PatternEvolution) (adjustments : List String)
deriving DecidableEq, Repr

/-- Whether a learning result is the `insufficient_data` status. -/
def LearnResult.isInsufficient : LearnResult → Bool
  | .insufficient _ => true
  | .report _ _ _ => false

/-- `AdaptiveLearningEngine.learn_from_pattern_history`: fetch the pattern's
rows (default limit 100), bail out below 5 rows, otherwise run the learning
pipeline, append the learning-log entries (base-weight changes are not
logged in the source) and persist the updated pattern. -/
def learn_from_pattern_history (db : DB) (p : PatternEvolution) :
    LearnResult × DB :=
  let trades := get_trades_for_pattern db (some p.name) 100
  if trades.length < 5 then (.insufficient trades.length, db)
  else
    let pr := learn_core p trades
    let db1 := (pr.snd.filter (fun a => a != "BASE_WEIGHT")).foldl
      (fun d a => log_learning d p.name a) db
    let db2 := save_pattern db1 pr.fst
    (.report trades.length pr.fst pr.snd, db2)

/-! ## Outcome analyzer entry point (`UnifiedIntelligenceEngine.resolve_trade`) -/

/-- Realized return: `(exit-entry)/entry` for LONG, `(entry-exit)/entry` for
SHORT. -/
def compute_actual_return (d : Direction) (entry exitP : ℚ) : ℚ :=
  if d = .LONG then (exitP - entry) / entry else (entry - exitP) / entry

/-- Direction-appropriate target-crossing test. -/
def crossed_target (d : Direction) (target exitP : ℚ) : Bool :=
  if d = .LONG then decide (target ≤ exitP) else decide (exitP ≤ target)

/-- Direction-appropriate stop-crossing test. -/
def crossed_stop (d : Direction) (stop exitP : ℚ) : Bool :=
  if d = .LONG then decide (exitP ≤ stop) else decide (stop ≤ exitP)

/-- The outcome decision of `resolve_trade`: target → WIN, else stop → LOSS,
else |return| < 0.5% → SCRATCH, else sign of the return. -/
def decide_outcome (d : Direction) (entry target stop exitP : ℚ) : Outcome :=
  let ar := compute_actual_return d entry exitP
  if crossed_target d target exitP then .WIN
  else if crossed_stop d stop exitP then .LOSS
  else if |ar| < 5/1000 then .SCRATCH
  else if 0 < ar then .WIN else .LOSS

/-- The field updates `resolve_trade` performs on the looked-up record, with
the excursion defaults (`vf`/`va`) already applied. -/
def resolved_core (trade0 : TradeRecord) (exit_price vf va : ℚ) (minutes : ℤ) :
    TradeRecord :=
  { trade0 with
    exit_price := some exit_price
    max_favorable := some vf
    max_adverse := some va
    actual_return := some (compute_actual_return trade0.direction trade0.entry_price exit_price)
    outcome := decide_outcome trade0.direction trade0.entry_price trade0.target_price
      trade0.stop_price exit_price
    time_to_resolution := some minutes }

/-- The terminal record as persisted: the resolved record plus the analysis
narrative fields. -/
def resolved_record (trade0 : TradeRecord) (exit_price vf va : ℚ) (minutes : ℤ) :
    TradeRecord :=
  let t2 := resolved_core trade0 exit_price vf va minutes
  let analysis := analyze_trade_outcome t2
  { t2 with failure_reasons := analysis.failure_reasons
            lessons := analysis.lessons
            improvements := analysis.improvements }

/-- The counter/bucket mutation of the owning pattern performed inside
`resolve_trade` (lines 632–655 of `intelligence.py`). -/
def update_pattern_stats (t : TradeRecord) (p : PatternEvolution) : PatternEvolution :=
  let p1 := { p with total_trades := p.total_trades + 1 }
  let p2 :=
    if t.outcome = .WIN then { p1 with wins := p1.wins + 1 }
    else if t.outcome = .LOSS then { p1 with losses := p1.losses + 1 }
    else { p1 with scratches := p1.scratches + 1 }
  let p3 := { p2 with total_return := p2.total_return + pyOrQ t.actual_return 0 }
  let p4 :=
    if t.vix_regime ≠ "" then
      { p3 with returns_by_vix := appendToKey p3.returns_by_vix t.vix_regime (pyOrQ t.actual_return 0) }
    else p3
  let p5 :=
    if t.time_of_day ≠ "" then
      { p4 with returns_by_time := appendToKey p4.returns_by_time t.time_of_day (pyOrQ t.actual_return 0) }
    else p4
  { p5 with returns_by_day := appendToKey p5.returns_by_day t.day_of_week (pyOrQ t.actual_return 0) }

/-- In-memory engine state: the active trade ledger (dict keyed by trade id,
so lookup is by the `id` field) and the persisted store. -/
structure EngineState where
  active_trades : List TradeRecord := []
  db : DB := {}
deriving DecidableEq, Repr

/-- The `{trade, analysis, learning?}` result dict of `resolve_trade`. -/
structure ResolveOutput where
  trade : TradeRecord
  analysis : TradeAnalysis
  learning : Option LearnResult := none
deriving DecidableEq, Repr

/-- The body of `resolve_trade` after the record lookup succeeded: compute
the outcome, analyze, persist the terminal record, drop it from the ledger,
update the owning pattern's counters, and trigger a learning pass when
`total_trades ≥ 5` and `total_trades % 5 == 0`. -/
def resolve_trade_found (st : EngineState) (trade0 : TradeRecord) (trade_id : String)
    (exit_price vf va : ℚ) (minutes : ℤ) : Except String ResolveOutput × EngineState :=
  let t3 := resolved_record trade0 exit_price vf va minutes
  let analysis := analyze_trade_outcome (resolved_core trade0 exit_price vf va minutes)
  let db1 := save_trade st.db t3
  let active1 := st.active_trades.filter (fun t => t.id != trade_id)
  match get_pattern db1 t3.pattern_name with
  | none => (.ok { trade := t3, analysis := analysis }, { active_trades := active1, db := db1 })
  | some pat =>
    let pat1 := update_pattern_stats t3 pat
    let db2 := save_pattern db1 pat1
    if 5 ≤ pat1.total_trades ∧ pat1.total_trades % 5 = 0 then
      let lr := learn_from_pattern_history db2 pat1
      (.ok { trade := t3, analysis := analysis, learning := some lr.fst },
        { active_trades := active1, db := lr.snd })
    else
      (.ok { trade := t3, analysis := analysis }, { active_trades := active1, db := db2 })

/-- `UnifiedIntelligenceEngine.resolve_trade`.  The fallback lookup loads
`get_trades_for_pattern(pattern_name=None, limit=1000)` — which, per the SQL
NULL semantics modelled above, is always empty, so any id absent from the
active ledger yields the `Trade not found` error.  Python's
`max_favorable or exit_price` / `max_adverse or exit_price` defaults are
applied before the found-branch body runs. -/
def resolve_trade (st : EngineState) (trade_id : String) (exit_price : ℚ)
    (max_favorable max_adverse : Option ℚ) (minutes : ℤ) :
    Except String ResolveOutput × EngineState :=
  let found :=
    match st.active_trades.find? (fun t => t.id == trade_id) with
    | some t => some t
    | none => (get_trades_for_pattern st.db none 1000).find? (fun t => t.id == trade_id)
  match found with
  | none => (.error "Trade not found", st)
  | some trade0 =>
    resolve_trade_found st trade0 trade_id exit_price
      (pyOrQ max_favorable exit_price) (pyOrQ max_adverse exit_price) minutes

/-- The `fed_dovish` entry of `INITIAL_PATTERNS` in `intelligence.py`. -/
def fed_dovish : PatternEvolution :=
  { name := "fed_dovish"
    keywords := ["rate cut", "dovish", "pivot", "pause", "easing"]
    direction := .LONG
    symbols := ["QQQ", "TLT"]
    base_weight := 2 }

/-- The `fed_emergency` entry of `INITIAL_PATTERNS` in `intelligence.py`. -/
def fed_emergency : PatternEvolution :=
  { name := "fed_emergency"
    keywords := ["emergency meeting", "emergency session", "unscheduled fomc"]
    direction := .SHORT
    symbols := ["SPY", "QQQ"]
    base_weight := 3 }

/-! ## Concrete scenario for the counter invariant (C1) -/

/-- A resolved winning trade row of pattern `pat1`. -/
def c1_row1 : TradeRecord :=
  { id := "t1", pattern_name := "pat1", direction := .LONG, entry_price := 100
    entry_time := 1, target_price := 103, stop_price := 98
    vix_regime := "NORMAL", time_of_day := "MIDDAY", day_of_week := 0
    days_to_expiry := 7, pattern_score := 2, outcome := .WIN
    exit_price := some 103, actual_return := some (3/100)
    max_favorable := some 103, max_adverse := some 103, time_to_resolution := some 200 }

/-- A second resolved winning trade row. -/
def c1_row2 : TradeRecord := { c1_row1 with id := "t2", entry_time := 2 }

/-- A resolved losing trade row. -/
def c1_row3 : TradeRecord :=
  { c1_row1 with
    id := "t3"
    entry_time := 3
    outcome := .LOSS
    exit_price := some 98
    actual_return := some (-(2/100))
    max_favorable := some 98
    max_adverse := some 98 }

/-- A second resolved losing trade row. -/
def c1_row4 : TradeRecord := { c1_row3 with id := "t4", entry_time := 4 }

/-- The still-pending trade about to be resolved (persisted at generation
time, as `scan_and_generate` does). -/
def c1_row5 : TradeRecord :=
  { c1_row1 with
    id := "t5"
    entry_time := 5
    outcome := .PENDING
    exit_price := none
    actual_return := none
    max_favorable := none
    max_adverse := none
    time_to_resolution := none }

/-- A second, still-open pending trade of the same pattern. -/
def c1_row6 : TradeRecord := { c1_row5 with id := "t6", entry_time := 6 }

/-- The owning pattern, with consistent counters 4 = 2+2+0 before the fifth
resolution. -/
def c1_pat : PatternEvolution :=
  { name := "pat1", keywords := ["alpha"], direction := .LONG
    total_trades := 4, wins := 2, losses := 2, scratches := 0, total_return := 2/100 }

/-- Engine state before resolving `t5`: two pending trades in the ledger,
all six rows persisted. -/
def c1_state : EngineState :=
  { active_trades := [c1_row5, c1_row6]
    db := { trades := [c1_row1, c1_row2, c1_row3, c1_row4, c1_row5, c1_row6]
            patterns := [c1_pat] } }

unseal Rat.add Rat.mul Rat.sub Rat.inv in
/-- C1: the claim says every resolution — including one that triggers a
learning pass — leaves `total_trades = wins + losses + scratches`.  The code
violates this: resolving `t5` (a WIN, the pattern's fifth resolved trade)
triggers the learning pass, which rewrites `total_trades` to the number of
fetched rows (six, the still-pending `t6` included) while `wins`/`losses`
are recounted from resolved rows only and `scratches` is never rewritten —
the stored pattern ends with `total_trades = 6` but
`wins + losses + scratches = 5`. -/
theorem c1_counter_invariant_broken_by_learning_pass :
    ((get_pattern (resolve_trade c1_state "t5" (207/2) none none 120).snd.db "pat1").map
      (fun p => (p.total_trades, p.wins + p.losses + p.scratches))) = some (6, 5) := by
  decide

/-! ## Effective-weight bounds (C2) -/

/-- The `fed_emergency` seed pattern after ten trades, eight of them wins. -/
def c2_pattern : PatternEvolution :=
  { fed_emergency with total_trades := 10, wins := 8, losses := 2 }

unseal Rat.add Rat.mul Rat.sub Rat.inv in
/-- C2 counterexample: the claim says `effective_weight` stays within
`[0.3, 3.0]`.  The seeded base weight 3.0 of `fed_emergency` combined with
a win rate above 0.65 at ten trades yields `3.0 × 1.3 = 3.9 > 3.0` — with no
learning-pass adjustment needed at all. -/
theorem c2_effective_weight_exceeds_claimed_bound :
    c2_pattern.effective_weight = 39/10 ∧ ¬ c2_pattern.effective_weight ≤ 3 := by
  decide

/-- C2 amended: what actually holds.  The learning-pass base-weight step
keeps `base_weight` inside `[0.3, 3.0]` whenever it starts there, and
`effective_weight` is that base weight times a live tier factor in
`[0.7, 1.3]`, hence stays within `[0.21, 3.9]` (and can genuinely exceed
3.0, as the counterexample shows). -/
theorem c2_weight_bounds :
    (∀ p : PatternEvolution, 3/10 ≤ p.base_weight → p.base_weight ≤ 3 →
      21/100 ≤ p.effective_weight ∧ p.effective_weight ≤ 39/10) ∧
    (∀ (p : PatternEvolution) (trades : List TradeRecord),
      3/10 ≤ p.base_weight → p.base_weight ≤ 3 →
      3/10 ≤ (apply_base_weight_learning p trades).fst.base_weight ∧
        (apply_base_weight_learning p trades).fst.base_weight ≤ 3) := by
  constructor
  · intro p h1 h2
    unfold PatternEvolution.effective_weight
    split_ifs <;> constructor <;> linarith
  · intro p trades h1 h2
    unfold apply_base_weight_learning
    split
    · dsimp only
      unfold base_weight_tier
      split_ifs
      · exact ⟨le_min (by norm_num) (by linarith), min_le_left _ _⟩
      · exact ⟨le_min (by norm_num) (by linarith), le_trans (min_le_left _ _) (by norm_num)⟩
      · exact ⟨le_max_left _ _, max_le (by norm_num) (by linarith)⟩
      · exact ⟨le_trans (by norm_num) (le_max_left _ _), max_le (by norm_num) (by linarith)⟩
      · exact ⟨h1, h2⟩
    · exact ⟨h1, h2⟩

unseal Rat.add Rat.mul Rat.sub Rat.inv in
/-- Witness for `c2_weight_bounds` at the concrete seeded pattern. -/
theorem c2_weight_bounds_witness :
    21/100 ≤ c2_pattern.effective_weight ∧ c2_pattern.effective_weight ≤ 39/10 :=
  c2_weight_bounds.1 c2_pattern (by decide) (by decide)

/-! ## Matching characterization (C5) -/

/-- Helper for C5: membership in the sorted match list is membership in the
per-pattern results. -/
theorem mem_match_patterns_iff (ps : List PatternEvolution) (text : String)
    (ctx : Option MarketContext) (r : MatchResult) :
    r ∈ match_patterns ps text ctx ↔ ∃ p ∈ ps, match_one p (py_lower text) ctx = some r := by
  unfold match_patterns
  rw [List.Perm.mem_iff (List.perm_insertionSort _ _)]
  simp [List.mem_filterMap]

unseal Rat.add Rat.mul Rat.sub Rat.inv in
/-- C5: a pattern fires exactly when the keyword hit count reaches
`min(2, keyword_count)` (so a one-keyword pattern fires on exactly one hit),
a fired pattern's base score is `(hits / keyword_count) × effective_weight`,
and the `fed_dovish` pattern matched against
"Fed signals rate cut and dovish pivot ahead" scores 3 hits and
`(3/5) × effective_weight`.  (The keyword-list-nonempty hypotheses keep the
statement inside Python's domain, where an empty keyword list would raise a
division error.) -/
theorem c5_match_fires_iff_min_hits :
    (∀ (ps : List PatternEvolution) (text : String) (ctx : Option MarketContext)
        (r : MatchResult),
      r ∈ match_patterns ps text ctx ↔ ∃ p ∈ ps, match_one p (py_lower text) ctx = some r) ∧
    (∀ (p : PatternEvolution) (text : String) (ctx : Option MarketContext),
      p.keywords ≠ [] →
      ((match_one p (py_lower text) ctx).isSome ↔
        min 2 p.keywords.length ≤ hit_count p (py_lower text))) ∧
    (∀ (p : PatternEvolution) (text : String),
      p.keywords.length = 1 →
      ((match_one p (py_lower text) none).isSome ↔ hit_count p (py_lower text) = 1)) ∧
    (∀ (p : PatternEvolution) (text : String) (r : MatchResult),
      match_one p (py_lower text) none = some r →
      r.score = (hit_count p (py_lower text) : ℚ) / (p.keywords.length : ℚ) *
        p.effective_weight) ∧
    (hit_count fed_dovish (py_lower "Fed signals rate cut and dovish pivot ahead") = 3 ∧
      (match_one fed_dovish (py_lower "Fed signals rate cut and dovish pivot ahead")
        none).map MatchResult.score = some ((3 : ℚ)/5 * fed_dovish.effective_weight)) := by
  refine ⟨mem_match_patterns_iff, ?_, ?_, ?_, ?_⟩
  · intro p text ctx _
    unfold match_one
    dsimp only
    split_ifs with h <;> simp [h]
  · intro p text h1
    have hle : hit_count p (py_lower text) ≤ 1 := by
      have := List.countP_le_length (fun kw => decide (kw.toList <:+: py_lower text))
        (l := p.keywords)
      unfold hit_count
      omega
    unfold match_one
    dsimp only
    split_ifs with h
    · simp only [Option.isSome_some, true_iff]
      rw [h1] at h
      omega
    · constructor
      · intro h2
        simp at h2
      · intro hc
        rw [h1] at h
        omega
  · intro p text r
    unfold match_one
    dsimp only
    split_ifs with h
    · intro hr
      cases hr
      rfl
    · intro hr
      cases hr
  · constructor
    · decide
    · decide

/-! ## Outcome decision (C6) -/

/-- The spec's description of the realized-return computation, for the
refinement comparison: `(exit−entry)/entry` for LONG and its negation for
SHORT. -/
def spec_actual_return (d : Direction) (entry exitP : ℚ) : ℚ :=
  let r := (exitP - entry) / entry
  if d = .SHORT then -r else r

/-- The spec's outcome decision order, for the refinement comparison:
hit_target → WIN; else hit_stop → LOSS; else |return| < 0.5% → SCRATCH; else
the sign of the return decides. -/
def spec_outcome (d : Direction) (entry target stop exitP : ℚ) : Outcome :=
  if crossed_target d target exitP then .WIN
  else if crossed_stop d stop exitP then .LOSS
  else if |spec_actual_return d entry exitP| < 5/1000 then .SCRATCH
  else if 0 < spec_actual_return d entry exitP then .WIN else .LOSS

/-- Helper for C6: the code's return formula equals the spec's. -/
theorem compute_actual_return_eq_spec (d : Direction) (entry exitP : ℚ) :
    compute_actual_return d entry exitP = spec_actual_return d entry exitP := by
  cases d
  · simp [compute_actual_return, spec_actual_return]
  · show (entry - exitP) / entry = -((exitP - entry) / entry)
    rw [← neg_div, neg_sub]

unseal Rat.add Rat.mul Rat.sub Rat.inv in
/-- C6: every resolved trade carries `actual_return = (exit−entry)/entry`
(negated for SHORT) and the outcome decided in the spec's order; the example
LONG trade entry 100, target 103, stop 98, exit 103.5 resolves to WIN with
return 0.035. -/
theorem c6_return_and_outcome_decision :
    (∀ (t : TradeRecord) (e vf va : ℚ) (m : ℤ),
      (resolved_core t e vf va m).actual_return
          = some (spec_actual_return t.direction t.entry_price e) ∧
        (resolved_core t e vf va m).outcome
          = spec_outcome t.direction t.entry_price t.target_price t.stop_price e) ∧
    compute_actual_return .LONG 100 (207/2) = 7/200 ∧
    decide_outcome .LONG 100 103 98 (207/2) = .WIN := by
  refine ⟨?_, by decide, by decide⟩
  intro t e vf va m
  constructor
  · show some (compute_actual_return t.direction t.entry_price e) = _
    rw [compute_actual_return_eq_spec]
  · show decide_outcome t.direction t.entry_price t.target_price t.stop_price e = _
    unfold decide_outcome spec_outcome
    rw [compute_actual_return_eq_spec]

/-! ## Learning minimum (C7) -/

/-- A resolved winning row of pattern `pat7`. -/
def c7_row1 : TradeRecord :=
  { id := "u1", pattern_name := "pat7", direction := .LONG, entry_price := 100
    entry_time := 1, target_price := 103, stop_price := 98, pattern_score := 2
    outcome := .WIN, exit_price := some 103, actual_return := some (3/100)
    max_favorable := some 103, max_adverse := some 103, time_to_resolution := some 90 }

/-- A resolved losing row of pattern `pat7`. -/
def c7_row2 : TradeRecord :=
  { c7_row1 with
    id := "u2"
    entry_time := 2
    outcome := .LOSS
    exit_price := some 98
    actual_return := some (-(2/100))
    max_favorable := some 98
    max_adverse := some 98 }

/-- A second resolved losing row. -/
def c7_row3 : TradeRecord := { c7_row2 with id := "u3", entry_time := 3 }

/-- A pending row of pattern `pat7`. -/
def c7_row4 : TradeRecord :=
  { c7_row1 with
    id := "u4"
    entry_time := 4
    outcome := .PENDING
    exit_price := none
    actual_return := none
    max_favorable := none
    max_adverse := none
    time_to_resolution := none }

/-- A second pending row. -/
def c7_row5 : TradeRecord := { c7_row4 with id := "u5", entry_time := 5 }

/-- The pattern that owns the five rows: only three of them are resolved. -/
def c7_pat : PatternEvolution :=
  { name := "pat7", keywords := ["beta"], total_trades := 3, wins := 1, losses := 2 }

/-- Store with three resolved and two pending rows for `pat7`. -/
def c7_db : DB :=
  { trades := [c7_row1, c7_row2, c7_row3, c7_row4, c7_row5], patterns := [c7_pat] }

unseal Rat.add Rat.mul Rat.sub Rat.inv in
/-- C7 counterexample: the claim says a pattern with fewer than 5 resolved
trades gets `insufficient_data` and PENDING trades do not count.  Here only
3 of the 5 stored rows are resolved, yet the learning pass proceeds to a
report: the source counts every fetched row, PENDING included. -/
theorem c7_pending_rows_counted_toward_minimum :
    ((get_trades_for_pattern c7_db (some "pat7") 100).filter
        (fun t => t.outcome != Outcome.PENDING)).length = 3 ∧
      (learn_from_pattern_history c7_db c7_pat).fst.isInsufficient = false := by
  decide

/-- C7 amended: `learn_from_pattern_history` returns `insufficient_data`
exactly when the pattern has fewer than 5 stored trade rows — of any
outcome, PENDING included — within the fetch limit of 100. -/
theorem c7_insufficient_iff_fewer_than_five_rows (db : DB) (p : PatternEvolution) :
    (learn_from_pattern_history db p).fst.isInsufficient = true ↔
      (get_trades_for_pattern db (some p.name) 100).length < 5 := by
  unfold learn_from_pattern_history
  dsimp only
  split_ifs with h
  · simpa [LearnResult.isInsufficient] using h
  · simpa [LearnResult.isInsufficient] using h

unseal Rat.add Rat.mul Rat.sub Rat.inv in
/-- Witness for `c5_match_fires_iff_min_hits` at the `fed_dovish` example. -/
theorem c5_match_fires_witness :
    (match_one fed_dovish (py_lower "Fed signals rate cut and dovish pivot ahead")
      none).isSome = true :=
  (c5_match_fires_iff_min_hits.2.1 fed_dovish
    "Fed signals rate cut and dovish pivot ahead" none (by decide)).mpr (by decide)

/-! ## Dead reconstruction path (C4) -/

/-- A resolved row persisted for pattern `pat4`, absent from the ledger. -/
def c4_row : TradeRecord :=
  { id := "t9", pattern_name := "pat4", direction := .LONG, entry_price := 100
    entry_time := 1, target_price := 103, stop_price := 98, outcome := .WIN
    exit_price := some 103, actual_return := some (3/100)
    max_favorable := some 103, max_adverse := some 103 }

/-- Engine state with an empty ledger but the row persisted. -/
def c4_state : EngineState :=
  { active_trades := [], db := { trades := [c4_row], patterns := [] } }

/-- C4: the claim says an id absent from the ledger but present in the
persisted store is reconstructed and resolved.  In fact the fallback lookup
runs `get_trades_for_pattern(pattern_name=None, limit=1000)`, whose SQL
`WHERE pattern_name = ?` against a NULL parameter matches no rows, so the
reconstruction path is dead: the call returns the NotFound error and leaves
the state untouched even though the row exists. -/
theorem c4_reconstruction_path_is_dead :
    c4_state.db.trades.any (fun t => t.id == "t9") = true ∧
      resolve_trade c4_state "t9" 101 none none 10
        = (Except.error "Trade not found", c4_state) :=
  ⟨rfl, rfl⟩

/-! ## Unserialized read-modify-write on the pattern row (C9) -/

/-- Interleaving state for two concurrent `resolve_trade` calls acting on
the same persisted pattern row: the store plus each thread's loaded copy
(`get_pattern` result) and completion flag. -/
structure RMWState where
  store : PatternEvolution
  loaded1 : Option PatternEvolution := none
  done1 : Bool := false
  loaded2 : Option PatternEvolution := none
  done2 : Bool := false
deriving DecidableEq, Repr

/-- One scheduler step: the chosen thread performs its next atomic database
call — first `get_pattern` (load), then `save_pattern` of its locally
mutated copy.  The engine lock only guards the active-trade map and the
database lock only each single query, so nothing prevents these four calls
from interleaving. -/
def rmw_step (t1 t2 : TradeRecord) (s : RMWState) (i : Fin 2) : RMWState :=
  if i = 0 then
    match s.loaded1, s.done1 with
    | none, _ => { s with loaded1 := some s.store }
    | some p, false => { s with store := update_pattern_stats t1 p, done1 := true }
    | some _, true => s
  else
    match s.loaded2, s.done2 with
    | none, _ => { s with loaded2 := some s.store }
    | some p, false => { s with store := update_pattern_stats t2 p, done2 := true }
    | some _, true => s

/-- Run a schedule of thread choices from an initial stored pattern. -/
def rmw_run (t1 t2 : TradeRecord) (sched : List (Fin 2)) (init : PatternEvolution) :
    RMWState :=
  sched.foldl (rmw_step t1 t2) { store := init }

/-- The first of two winning trades resolved concurrently for `pat9`. -/
def c9_t1 : TradeRecord :=
  { id := "v1", pattern_name := "pat9", direction := .LONG, entry_price := 100
    entry_time := 1, target_price := 103, stop_price := 98, outcome := .WIN
    exit_price := some 103, actual_return := some (3/100)
    max_favorable := some 103, max_adverse := some 103 }

/-- The second concurrently resolved winning trade. -/
def c9_t2 : TradeRecord := { c9_t1 with id := "v2", entry_time := 2 }

/-- The shared pattern row before either resolution. -/
def c9_pat : PatternEvolution :=
  { name := "pat9", keywords := ["gamma"], total_trades := 4, wins := 2, losses := 2 }

unseal Rat.add Rat.mul Rat.sub Rat.inv in
/-- C9: the claim says concurrent resolutions for the same pattern cannot
lose counter updates because the load→mutate→save sequence is serialized per
pattern name.  No such serialization exists in the source, and the
interleaving load₁·load₂·save₁·save₂ ends with `total_trades = 5`, while
either sequential order of the two `update_pattern_stats` mutations gives 6:
one increment is silently lost. -/
theorem c9_unserialized_rmw_loses_update :
    (rmw_run c9_t1 c9_t2 [0, 1, 0, 1] c9_pat).store.total_trades = 5 ∧
      (update_pattern_stats c9_t2 (update_pattern_stats c9_t1 c9_pat)).total_trades = 6 ∧
      (update_pattern_stats c9_t1 (update_pattern_stats c9_t2 c9_pat)).total_trades = 6 := by
  decide

/-! ## Shared lemmas about the store operations -/

/-- A `None` pattern-name fetch matches no rows (SQL NULL comparison). -/
theorem get_trades_for_pattern_none (db : DB) (limit : ℕ) :
    get_trades_for_pattern db none limit = [] := by
  unfold get_trades_for_pattern
  dsimp only
  rw [List.filter_false]
  simp

/-- Persisting a pattern leaves the trades table unchanged. -/
theorem save_pattern_trades (db : DB) (p : PatternEvolution) :
    (save_pattern db p).trades = db.trades := by
  unfold save_pattern
  dsimp only
  split_ifs <;> rfl

/-- Logging a learning event leaves the trades table unchanged. -/
theorem log_learning_trades (db : DB) (a b : String) :
    (log_learning db a b).trades = db.trades := rfl

/-- Folding learning-log appends leaves the trades table unchanged. -/
theorem foldl_log_learning_trades (l : List String) (n : String) (db : DB) :
    (l.foldl (fun d a => log_learning d n a) db).trades = db.trades := by
  induction l generalizing db with
  | nil => rfl
  | cons a l ih => rw [List.foldl_cons, ih, log_learning_trades]

/-- A learning pass never touches the trades table. -/
theorem learn_preserves_trades (db : DB) (p : PatternEvolution) :
    (learn_from_pattern_history db p).snd.trades = db.trades := by
  unfold learn_from_pattern_history
  dsimp only
  split_ifs with h
  · rfl
  · rw [save_pattern_trades, foldl_log_learning_trades]

/-- The persisted row with the given trade id. -/
def get_trade (db : DB) (tid : String) : Option TradeRecord :=
  db.trades.find? (fun r => r.id == tid)

/-- The resolved record keeps the looked-up record's id. -/
theorem resolved_record_id (t : TradeRecord) (e vf va : ℚ) (m : ℤ) :
    (resolved_record t e vf va m).id = t.id := rfl

/-- The resolved record stores the supplied excursion defaults. -/
theorem resolved_record_excursions (t : TradeRecord) (e vf va : ℚ) (m : ℤ) :
    (resolved_record t e vf va m).max_favorable = some vf ∧
      (resolved_record t e vf va m).max_adverse = some va :=
  ⟨rfl, rfl⟩

/-- In every branch, the found-trade body answers `ok` with the resolved
record and its analysis. -/
theorem resolve_trade_found_ok (st : EngineState) (tr : TradeRecord) (tid : String)
    (e vf va : ℚ) (m : ℤ) :
    ∃ lrn st', resolve_trade_found st tr tid e vf va m
      = (Except.ok { trade := resolved_record tr e vf va m
                     analysis := analyze_trade_outcome (resolved_core tr e vf va m)
                     learning := lrn }, st') := by
  unfold resolve_trade_found
  dsimp only
  split
  · exact ⟨none, _, rfl⟩
  · split_ifs with hc
    · exact ⟨_, _, rfl⟩
    · exact ⟨none, _, rfl⟩

/-- In every branch, the found-trade body's trades table is the one obtained
by persisting the terminal record. -/
theorem resolve_trade_found_trades (st : EngineState) (tr : TradeRecord) (tid : String)
    (e vf va : ℚ) (m : ℤ) :
    (resolve_trade_found st tr tid e vf va m).snd.db.trades
      = (save_trade st.db (resolved_record tr e vf va m)).trades := by
  unfold resolve_trade_found
  dsimp only
  split
  · rfl
  · split_ifs with hc
    · dsimp only
      rw [learn_preserves_trades, save_pattern_trades]
    · dsimp only
      rw [save_pattern_trades]

/-- In every branch, the found-trade body removes the id from the ledger. -/
theorem resolve_trade_found_active (st : EngineState) (tr : TradeRecord) (tid : String)
    (e vf va : ℚ) (m : ℤ) :
    (resolve_trade_found st tr tid e vf va m).snd.active_trades
      = st.active_trades.filter (fun t => t.id != tid) := by
  unfold resolve_trade_found
  dsimp only
  split
  · rfl
  · split_ifs with hc <;> rfl

/-- Replacing the row of a different id does not change a lookup. -/
theorem find_id_map_replace (l : List TradeRecord) (t : TradeRecord) (tid : String)
    (h : t.id ≠ tid) :
    (l.map (fun r => if r.id == t.id then t else r)).find? (fun r => r.id == tid)
      = l.find? (fun r => r.id == tid) := by
  have h1 : (t.id == tid) = false := by simp [h]
  induction l with
  | nil => rfl
  | cons a l ih =>
    rw [List.map_cons]
    by_cases hat : a.id = t.id
    · have h2 : (a.id == tid) = false := by simp [hat, h]
      rw [if_pos (show (a.id == t.id) = true by simp [hat])]
      simp only [List.find?_cons, h1, h2]
      exact ih
    · rw [if_neg (show ¬ (a.id == t.id) = true by simp [hat])]
      cases hpa : (a.id == tid) with
      | true => simp only [List.find?_cons, hpa]
      | false =>
        simp only [List.find?_cons, hpa]
        exact ih

/-- Appending a row of a different id does not change a lookup. -/
theorem find_id_append_single (l : List TradeRecord) (t : TradeRecord) (tid : String)
    (h : t.id ≠ tid) :
    (l ++ [t]).find? (fun r => r.id == tid) = l.find? (fun r => r.id == tid) := by
  have h1 : (t.id == tid) = false := by simp [h]
  induction l with
  | nil =>
    show List.find? _ [t] = List.find? _ []
    simp only [List.find?_cons, h1]
  | cons a l ih =>
    rw [List.cons_append]
    cases hpa : (a.id == tid) with
    | true => simp only [List.find?_cons, hpa]
    | false =>
      simp only [List.find?_cons, hpa]
      exact ih

/-- `save_trade` of a record with a different id preserves a lookup. -/
theorem save_trade_find_other (db : DB) (t : TradeRecord) (tid : String) (h : t.id ≠ tid) :
    (save_trade db t).trades.find? (fun r => r.id == tid)
      = db.trades.find? (fun r => r.id == tid) := by
  unfold save_trade
  split_ifs with hany
  · exact find_id_map_replace _ _ _ h
  · exact find_id_append_single _ _ _ h

/-! ## Terminal records are immutable and re-resolution is NotFound (C3) -/

/-- C3: once a trade has left the active ledger (as every resolved trade
has), any `resolve_trade` call on that id answers the NotFound error and
changes nothing, and no `resolve_trade` call on any other id ever rewrites
the stored row of that id or re-admits it to the ledger. -/
theorem c3_resolved_id_not_found_and_row_immutable
    (st : EngineState) (tid tid' : String) (e : ℚ) (mf ma : Option ℚ) (m : ℤ)
    (h : st.active_trades.find? (fun t => t.id == tid) = none) :
    (tid' = tid → resolve_trade st tid' e mf ma m = (Except.error "Trade not found", st)) ∧
      get_trade (resolve_trade st tid' e mf ma m).snd.db tid = get_trade st.db tid ∧
      (resolve_trade st tid' e mf ma m).snd.active_trades.find?
        (fun t => t.id == tid) = none := by
  have hnf : ∀ tid2 : String, st.active_trades.find? (fun t => t.id == tid2) = none →
      resolve_trade st tid2 e mf ma m = (Except.error "Trade not found", st) := by
    intro tid2 h2
    unfold resolve_trade
    rw [h2, get_trades_for_pattern_none]
    rfl
  cases hfind : st.active_trades.find? (fun t => t.id == tid') with
  | none =>
    rw [hnf tid' hfind]
    exact ⟨fun _ => rfl, rfl, h⟩
  | some tr =>
    have htr_id : tr.id = tid' := by
      have := List.find?_some hfind
      simpa using this
    have htr_ne : tr.id ≠ tid := by
      have hmem := List.mem_of_find?_eq_some hfind
      have := List.find?_eq_none.mp h tr hmem
      simpa using this
    have hres : resolve_trade st tid' e mf ma m
        = resolve_trade_found st tr tid' e (pyOrQ mf e) (pyOrQ ma e) m := by
      unfold resolve_trade
      rw [hfind]
    refine ⟨fun heq => absurd (htr_id.trans heq) htr_ne, ?_, ?_⟩
    · rw [hres]
      unfold get_trade
      rw [resolve_trade_found_trades]
      exact save_trade_find_other _ _ _ (by rw [resolved_record_id]; exact htr_ne)
    · rw [hres, resolve_trade_found_active]
      apply List.find?_eq_none.mpr
      intro x hx
      exact List.find?_eq_none.mp h x (List.mem_filter.mp hx).1

/-- A resolved row of pattern `pat3`, already out of the ledger. -/
def c3_row : TradeRecord :=
  { id := "r1", pattern_name := "pat3", direction := .LONG, entry_price := 100
    entry_time := 1, target_price := 103, stop_price := 98, outcome := .WIN
    exit_price := some 103, actual_return := some (3/100)
    max_favorable := some 103, max_adverse := some 103 }

/-- Engine state holding the terminal row with an empty ledger. -/
def c3_state : EngineState :=
  { active_trades := [], db := { trades := [c3_row], patterns := [] } }

/-- Witness for `c3_resolved_id_not_found_and_row_immutable` at the concrete
terminal row. -/
theorem c3_not_found_witness :
    resolve_trade c3_state "r1" 101 none none 10
      = (Except.error "Trade not found", c3_state) :=
  (c3_resolved_id_not_found_and_row_immutable c3_state "r1" "r1" 101 none none 10 rfl).1 rfl

/-! ## Falsy excursion arguments default to the exit price (C10) -/

/-- Python-falsy optional float: `None` or `0.0`. -/
def falsyQ (o : Option ℚ) : Prop := o = none ∨ o = some 0

/-- C10: calling `resolve_trade` with falsy `max_favorable`/`max_adverse`
(absent, `None`, or `0`) behaves exactly as if both excursions equalled the
exit price — the stored excursion fields are set to the exit price before
outcome classification and failure analysis, so the excursion-based rules
see the exit price as the extreme reached. -/
theorem c10_falsy_excursions_default_to_exit_price
    (st : EngineState) (tid : String) (e : ℚ) (mf ma : Option ℚ) (m : ℤ)
    (hf : falsyQ mf) (ha : falsyQ ma) :
    resolve_trade st tid e mf ma m = resolve_trade st tid e (some e) (some e) m ∧
      ∀ (out : ResolveOutput) (st' : EngineState),
        resolve_trade st tid e mf ma m = (Except.ok out, st') →
        out.trade.max_favorable = some e ∧ out.trade.max_adverse = some e := by
  have h1 : pyOrQ mf e = e := by rcases hf with h | h <;> simp [h, pyOrQ]
  have h2 : pyOrQ ma e = e := by rcases ha with h | h <;> simp [h, pyOrQ]
  have h3 : pyOrQ (some e) e = e := by simp [pyOrQ]
  constructor
  · simp only [resolve_trade, h1, h2, h3]
  · intro out st' hres
    unfold resolve_trade at hres
    cases hfind : st.active_trades.find? (fun t => t.id == tid) with
    | none =>
      rw [hfind, get_trades_for_pattern_none] at hres
      simp at hres
    | some tr =>
      rw [hfind] at hres
      dsimp only at hres
      rw [h1, h2] at hres
      obtain ⟨lrn, st2, heq⟩ := resolve_trade_found_ok st tr tid e e e m
      rw [heq] at hres
      have hout : out = { trade := resolved_record tr e e e m
                          analysis := analyze_trade_outcome (resolved_core tr e e e m)
                          learning := lrn } := by
        have := congrArg Prod.fst hres
        simpa using this.symm
      rw [hout]
      exact resolved_record_excursions tr e e e m

/-- A pending trade in the ledger for the C10 witness. -/
def c10_trade : TradeRecord :=
  { id := "w1", pattern_name := "patw", direction := .LONG, entry_price := 100
    entry_time := 1, target_price := 103, stop_price := 98 }

/-- Engine state with the pending trade registered and persisted. -/
def c10_state : EngineState :=
  { active_trades := [c10_trade], db := { trades := [c10_trade], patterns := [] } }

/-- Witness for `c10_falsy_excursions_default_to_exit_price` at a concrete
resolve with `None` and `0` excursions. -/
theorem c10_falsy_excursions_witness :
    resolve_trade c10_state "w1" 101 none (some 0) 10
      = resolve_trade c10_state "w1" 101 (some 101) (some 101) 10 :=
  (c10_falsy_excursions_default_to_exit_price c10_state "w1" 101 none (some 0) 10
    (Or.inl rfl) (Or.inr rfl)).1

/-! ## Stop-distance learning characterization (C8) -/

/-- The stop-mutation condition: the claim's three conditions (tight-stop
majority, confidence above 0.70, change above 0.5 percentage points) plus
the nonzero-recommendation gate that the source's Python truthiness check
adds. -/
@[reducible] def stop_mutation_condition (ls : List TradeRecord) (current : ℚ) : Prop :=
  ((ls.length : ℚ) * (1/2) < ((tight_stop_rows ls).length : ℚ)) ∧
    recommended_stop ls ≠ 0 ∧
    7/10 < stop_confidence ls ∧
    5/1000 < |recommended_stop ls - current|

instance (ls : List TradeRecord) (c : ℚ) : Decidable (stop_mutation_condition ls c) := by
  unfold stop_mutation_condition
  infer_instance

/-- Step 1 of the learning pass does not touch the stop distance. -/
theorem apply_vix_learning_stop (p : PatternEvolution) (trades : List TradeRecord) :
    ((apply_vix_learning p trades).fst).optimal_stop_pct = p.optimal_stop_pct := by
  unfold apply_vix_learning
  dsimp only
  split_ifs <;> rfl

/-- Step 2 of the learning pass does not touch the stop distance. -/
theorem apply_time_learning_stop (p : PatternEvolution) (trades : List TradeRecord) :
    ((apply_time_learning p trades).fst).optimal_stop_pct = p.optimal_stop_pct := by
  unfold apply_time_learning
  dsimp only
  split_ifs <;> rfl

/-- Step 4 of the learning pass does not touch the stop distance. -/
theorem apply_target_learning_stop (p : PatternEvolution) (trades : List TradeRecord) :
    ((apply_target_learning p trades).fst).optimal_stop_pct = p.optimal_stop_pct := by
  unfold apply_target_learning
  dsimp only
  split_ifs <;> rfl

/-- Step 5 of the learning pass does not touch the stop distance. -/
theorem apply_day_learning_stop (p : PatternEvolution) (trades : List TradeRecord) :
    (apply_day_learning p trades).optimal_stop_pct = p.optimal_stop_pct := by
  unfold apply_day_learning
  dsimp only
  split_ifs <;> rfl

/-- Step 6 of the learning pass does not touch the stop distance. -/
theorem apply_base_weight_learning_stop (p : PatternEvolution) (trades : List TradeRecord) :
    ((apply_base_weight_learning p trades).fst).optimal_stop_pct = p.optimal_stop_pct := by
  unfold apply_base_weight_learning
  dsimp only
  split_ifs <;> rfl

/-- The closing counter rewrite does not touch the stop distance. -/
theorem rewrite_counters_stop (p : PatternEvolution) (trades : List TradeRecord) :
    (rewrite_counters p trades).optimal_stop_pct = p.optimal_stop_pct := rfl

/-- The learning pipeline's stop distance is decided by the stop step alone. -/
theorem learn_core_stop (p : PatternEvolution) (trades : List TradeRecord) :
    (learn_core p trades).fst.optimal_stop_pct
      = (apply_stop_learning ((apply_time_learning ((apply_vix_learning p trades).fst)
          trades).fst) trades).fst.optimal_stop_pct := by
  unfold learn_core
  dsimp only
  rw [rewrite_counters_stop, apply_base_weight_learning_stop, apply_day_learning_stop,
    apply_target_learning_stop]

/-- The stop step adopts the recommendation exactly when the gate passes and
the change exceeds half a percentage point. -/
theorem apply_stop_learning_value (p : PatternEvolution) (trades : List TradeRecord) :
    ((apply_stop_learning p trades).fst).optimal_stop_pct
      = if stop_gate (analyze_stops trades) ∧
            5/1000 < |(analyze_stops trades).optimal_stop.getD 0 - p.optimal_stop_pct|
        then (analyze_stops trades).optimal_stop.getD 0
        else p.optimal_stop_pct := by
  unfold apply_stop_learning
  dsimp only
  split_ifs <;> rfl

/-- On a tight-stop majority with enough losses, `_analyze_stops` recommends
the widened, capped stop with the sample-size confidence. -/
theorem analyze_stops_eq_of_majority (trades : List TradeRecord)
    (h1 : ¬ (stop_loss_rows trades).length < 3)
    (h2 : ((stop_loss_rows trades).length : ℚ) * (1/2)
        < ((tight_stop_rows (stop_loss_rows trades)).length : ℚ)) :
    analyze_stops trades
      = { optimal_stop := some (recommended_stop (stop_loss_rows trades))
          confidence := stop_confidence (stop_loss_rows trades) } := by
  unfold analyze_stops
  dsimp only
  rw [if_neg h1, if_pos h2]

/-- Without a tight-stop majority (or below three losses) there is no stop
recommendation. -/
theorem analyze_stops_none_of_not_majority (trades : List TradeRecord)
    (h : (stop_loss_rows trades).length < 3 ∨
      ¬ ((stop_loss_rows trades).length : ℚ) * (1/2)
          < ((tight_stop_rows (stop_loss_rows trades)).length : ℚ)) :
    (analyze_stops trades).optimal_stop = none := by
  unfold analyze_stops
  dsimp only
  rcases h with h | h
  · rw [if_pos h]
  · by_cases h1 : (stop_loss_rows trades).length < 3
    · rw [if_pos h1]
    · rw [if_neg h1, if_neg h]
      split_ifs <;> rfl

/-- A missing recommendation fails the Python truthiness gate. -/
theorem stop_gate_false_of_none (sa : StopAnalysis) (h : sa.optimal_stop = none) :
    stop_gate sa = false := by
  unfold stop_gate
  rw [h]
  rfl

/-- C8 amended: under the report branch (at least five fetched rows), the
learning pass mutates `optimal_stop_pct` exactly when the claim's three
conditions hold AND the recommended value is nonzero (a `0.0` recommendation
is falsy in Python and is discarded); in particular a recommendation whose
confidence is at most 0.70 never mutates the pattern. -/
theorem c8_stop_mutation_iff (db : DB) (p : PatternEvolution)
    (h5 : 5 ≤ (get_trades_for_pattern db (some p.name) 100).length) :
    ∃ adj,
      (learn_from_pattern_history db p).fst
        = LearnResult.report (get_trades_for_pattern db (some p.name) 100).length
            (learn_core p (get_trades_for_pattern db (some p.name) 100)).fst adj ∧
      (learn_core p (get_trades_for_pattern db (some p.name) 100)).fst.optimal_stop_pct
        = (if stop_mutation_condition
              (stop_loss_rows (get_trades_for_pattern db (some p.name) 100))
              p.optimal_stop_pct
           then recommended_stop (stop_loss_rows (get_trades_for_pattern db (some p.name) 100))
           else p.optimal_stop_pct) ∧
      (stop_confidence (stop_loss_rows (get_trades_for_pattern db (some p.name) 100)) ≤ 7/10 →
        (learn_core p (get_trades_for_pattern db (some p.name) 100)).fst.optimal_stop_pct
          = p.optimal_stop_pct) := by
  set trades := get_trades_for_pattern db (some p.name) 100 with htr
  set ls := stop_loss_rows trades with hls
  have hvalue : (learn_core p trades).fst.optimal_stop_pct
      = (if stop_mutation_condition ls p.optimal_stop_pct
         then recommended_stop ls
         else p.optimal_stop_pct) := by
    rw [learn_core_stop, apply_stop_learning_value, apply_time_learning_stop,
      apply_vix_learning_stop]
    by_cases h3 : ls.length < 3
    · have hnone := analyze_stops_none_of_not_majority trades (Or.inl h3)
      have hg := stop_gate_false_of_none _ hnone
      rw [if_neg (by simp [hg]), if_neg ?_]
      intro hc
      have hcf := hc.2.2.1
      have hlen : (ls.length : ℚ) ≤ 2 := by
        exact_mod_cast Nat.lt_succ_iff.mp h3
      have : stop_confidence ls ≤ 2/10 := by
        unfold stop_confidence
        calc min 1 ((ls.length : ℚ) / 10) ≤ (ls.length : ℚ) / 10 := min_le_right _ _
          _ ≤ 2/10 := by linarith
      linarith
    · by_cases hm : ((ls.length : ℚ) * (1/2) < ((tight_stop_rows ls).length : ℚ))
      · rw [analyze_stops_eq_of_majority trades h3 hm]
        dsimp only
        by_cases hc : stop_mutation_condition ls p.optimal_stop_pct
        · have hgate : stop_gate
              { optimal_stop := some (recommended_stop (stop_loss_rows trades))
                confidence := stop_confidence (stop_loss_rows trades) } = true := by
            simp only [stop_gate, truthyQ, Bool.and_eq_true, bne_iff_ne, decide_eq_true_eq]
            exact ⟨hc.2.1, hc.2.2.1⟩
          rw [if_pos ⟨hgate, by simpa using hc.2.2.2⟩, if_pos hc]
          rfl
        · rw [if_neg ?_, if_neg hc]
          intro hgate
          apply hc
          have h1 := hgate.1
          simp only [stop_gate, truthyQ, Bool.and_eq_true, bne_iff_ne, decide_eq_true_eq] at h1
          exact ⟨hm, h1.1, h1.2, by simpa using hgate.2⟩
      · have hnone := analyze_stops_none_of_not_majority trades (Or.inr hm)
        have hg := stop_gate_false_of_none _ hnone
        rw [if_neg (by simp [hg]), if_neg ?_]
        intro hc
        exact hm hc.1
  refine ⟨(learn_core p trades).snd, ?_, hvalue, ?_⟩
  · unfold learn_from_pattern_history
    dsimp only
    rw [if_neg (by omega : ¬ trades.length < 5)]
  · intro hconf
    rw [hvalue, if_neg ?_]
    intro hc
    have := hc.2.2.1
    linarith

/-- A loss row for `pat8` whose planned stop distance is zero: the adverse
excursion (0.1%) "barely exceeds" it, so the row counts as a tight stop. -/
def c8_row1 : TradeRecord :=
  { id := "s1", pattern_name := "pat8", direction := .LONG, entry_price := 100
    entry_time := 1, target_price := 103, stop_price := 100, pattern_score := 2
    outcome := .LOSS, exit_price := some (999/10), actual_return := some (-(1/1000))
    max_favorable := some 100, max_adverse := some (999/10), time_to_resolution := some 90 }

/-- Rows 2–8: the same shape with fresh ids and times. -/
def c8_row (i : ℕ) : TradeRecord :=
  { c8_row1 with id := "s" ++ toString i, entry_time := i }

/-- The pattern whose current stop is the 2% default. -/
def c8_pat : PatternEvolution :=
  { name := "pat8", keywords := ["delta"], total_trades := 8, wins := 0, losses := 8 }

/-- Store with the eight loss rows. -/
def c8_db : DB :=
  { trades := [c8_row 1, c8_row 2, c8_row 3, c8_row 4, c8_row 5, c8_row 6, c8_row 7, c8_row 8]
    patterns := [c8_pat] }

/-- The new stop carried by a learning report, if any. -/
def LearnResult.newStop : LearnResult → Option ℚ
  | .insufficient _ => none
  | .report _ p _ => some p.optimal_stop_pct

unseal Rat.add Rat.mul Rat.sub Rat.inv in
/-- C8 counterexample: all three conditions of the claim hold — 8 of 8
losses are within 0.5 percentage points of the planned stop, the confidence
is min(1, 8/10) = 0.8 > 0.70, and the recommended stop (0, since the average
planned stop is 0) differs from the current 2% stop by 2 percentage points —
yet the pattern's stop is NOT mutated, because Python's truthiness check
discards the recommendation `0.0`. -/
theorem c8_all_claimed_conditions_hold_yet_stop_unchanged :
    ((stop_loss_rows (get_trades_for_pattern c8_db (some "pat8") 100)).length : ℚ) * (1/2)
        < ((tight_stop_rows (stop_loss_rows
            (get_trades_for_pattern c8_db (some "pat8") 100))).length : ℚ) ∧
      7/10 < stop_confidence (stop_loss_rows (get_trades_for_pattern c8_db (some "pat8") 100)) ∧
      5/1000 < |recommended_stop (stop_loss_rows (get_trades_for_pattern c8_db (some "pat8") 100))
          - c8_pat.optimal_stop_pct| ∧
      (learn_from_pattern_history c8_db c8_pat).fst.newStop = some c8_pat.optimal_stop_pct := by
  decide

unseal Rat.add Rat.mul Rat.sub Rat.inv in
/-- Witness for `c8_stop_mutation_iff` at the eight-loss store. -/
theorem c8_stop_mutation_iff_witness :
    ∃ adj,
      (learn_from_pattern_history c8_db c8_pat).fst
        = LearnResult.report (get_trades_for_pattern c8_db (some "pat8") 100).length
            (learn_core c8_pat (get_trades_for_pattern c8_db (some "pat8") 100)).fst adj ∧
      (learn_core c8_pat (get_trades_for_pattern c8_db (some "pat8") 100)).fst.optimal_stop_pct
        = (if stop_mutation_condition
              (stop_loss_rows (get_trades_for_pattern c8_db (some "pat8") 100))
              c8_pat.optimal_stop_pct
           then recommended_stop (stop_loss_rows (get_trades_for_pattern c8_db (some "pat8") 100))
           else c8_pat.optimal_stop_pct) ∧
      (stop_confidence (stop_loss_rows (get_trades_for_pattern c8_db (some "pat8") 100)) ≤ 7/10 →
        (learn_core c8_pat (get_trades_for_pattern c8_db (some "pat8") 100)).fst.optimal_stop_pct
          = c8_pat.optimal_stop_pct) :=
  c8_stop_mutation_iff c8_db c8_pat (by decide)

end NQGod
